import Mathlib

/-!
Verification development for the deno-ndl repository's query-building and
result/pagination/diagnostics orchestration core.

The TypeScript source (src/api/sru.ts, src/utils/cql-builder.ts and the zod
schemas in src/schemas) is shallowly embedded below: pure functions become
Lean functions, the async transport boundary becomes an explicit
`Except`-valued outcome parameter, JS numbers on these code paths are naturals
(all quantities involved are non-negative integers), and JS strings are Lean
`String`s (lists of characters; the code paths embedded here only rely on
per-code-unit operations that agree on this representation).
-/

namespace NDL

/-! ## JavaScript string/number primitives used by the source -/

/-- `listStartsWith pat l` is true when `pat` is an initial segment of `l`. -/
def listStartsWith : List Char → List Char → Bool
  | [], _ => true
  | _ :: _, [] => false
  | p :: ps, c :: cs => p = c && listStartsWith ps cs

/-- Occurrence of `pat` as a contiguous segment of `hay`. -/
def listContainsSeg (hay pat : List Char) : Bool :=
  match hay with
  | [] => pat.isEmpty
  | _ :: t => listStartsWith pat hay || listContainsSeg t pat

/-- Model of JavaScript `String.prototype.includes`. -/
def strContains (s sub : String) : Bool :=
  listContainsSeg s.toList sub.toList

/-- Model of JavaScript `String.prototype.toLowerCase` on the ASCII range
(the only range exercised by the embedded code's case-insensitive markers). -/
def jsToLower (s : String) : String :=
  (s.toList.map Char.toLower).asString

/-- Value of a maximal run of leading decimal digits; `none` when the run is
empty (JavaScript `parseInt` yielding `NaN`). -/
def leadDigits (l : List Char) : Option Nat :=
  match l.takeWhile Char.isDigit with
  | [] => none
  | ds => some (ds.foldl (fun a c => a * 10 + (c.toNat - 48)) 0)

/-- Model of JavaScript `parseInt(s)` (radix 10; the embedded call sites never
receive `0x`-prefixed input): skip leading whitespace, optional sign, then a
maximal digit run; `none` models `NaN`. -/
def parseIntJS (s : String) : Option Int :=
  match s.toList.dropWhile Char.isWhitespace with
  | '-' :: rest => (leadDigits rest).map (fun n => -(n : Int))
  | '+' :: rest => (leadDigits rest).map (fun n => (n : Int))
  | rest => (leadDigits rest).map (fun n => (n : Int))

/-- JS `a || d` for an optional number whose default is used both when the
field is absent and when it is `0` (falsy). -/
def jsOrDefault (o : Option Nat) (d : Nat) : Nat :=
  match o with
  | some n => if n = 0 then d else n
  | none => d

/-- JS `a || d` for an optional string (the empty string is falsy). -/
def jsOrDefaultStr (o : Option String) (d : String) : String :=
  match o with
  | some s => if s = "" then d else s
  | none => d

/-- JS truthiness of an optional string (`undefined` and `""` are falsy). -/
def optStrTruthy : Option String → Bool
  | some s => s ≠ ""
  | none => false

/-- A value that the XML layer delivers either as a single node or as an
array of nodes (`Array.isArray(x) ? x : [x]` normalization target). -/
inductive OneOrMany (α : Type) where
  | one (a : α)
  | many (l : List α)
deriving Repr, DecidableEq

/-- The `Array.isArray(x) ? x : [x]` normalization. -/
def OneOrMany.toList {α : Type} : OneOrMany α → List α
  | .one a => [a]
  | .many l => l

/-! ## Error model (src/errors.ts)

`NDLError` in the source is a record `{ type, message, cause? }` with a closed
set of `type` tags. The `cause` payload is either the offending diagnostic
record or an opaque schema-validation payload; the latter is represented by a
marker constructor since the schema-issue shape is owned by the out-of-scope
validation collaborator. -/

/-- SRU diagnostic record as consumed by `analyzeSRUDiagnostics`
(src/api/sru.ts): `{ uri?, code?, message, details? }`. -/
structure SRUDiagnostic where
  uri : Option String
  code : Option String
  message : String
  details : Option String
deriving Repr, DecidableEq

/-- Cause payload attached to an `NDLError`. -/
inductive NDLErrorCause where
  | diag (d : SRUDiagnostic)
  | schemaIssues
deriving Repr, DecidableEq

/-- `NDLError` record from src/errors.ts. -/
structure NDLError where
  type : String
  message : String
  cause : Option NDLErrorCause := none
deriving Repr, DecidableEq

/-- `validationError` constructor (src/errors.ts). -/
def validationError (message : String) (cause : Option NDLErrorCause := none) :
    NDLError :=
  { type := "validation", message := message, cause := cause }

/-- `querySyntaxError` constructor (src/errors.ts). -/
def querySyntaxError (message : String) (d : SRUDiagnostic) : NDLError :=
  { type := "query_syntax", message := message, cause := some (.diag d) }

/-- `sruDiagnosticError` constructor (src/errors.ts). -/
def sruDiagnosticError (message : String) (d : SRUDiagnostic) : NDLError :=
  { type := "sru_diagnostic", message := message, cause := some (.diag d) }

/-! ## Diagnostic classifier (src/api/sru.ts, analyzeSRUDiagnostics) -/

/-- Body of the `for (const diagnostic of diagnostics)` loop of
`analyzeSRUDiagnostics`: the four early-return rules checked on one
diagnostic, in source order; `none` when no rule matches. -/
def classifyDiagnostic (d : SRUDiagnostic) : Option NDLError :=
  let uri := jsOrDefaultStr d.uri ""
  let message := d.message
  if strContains uri "query/syntax" || strContains (jsToLower message) "syntax" then
    some (querySyntaxError ("CQLクエリの構文エラー: " ++ message) d)
  else if strContains uri "query/feature" ||
      strContains (jsToLower message) "unsupported" then
    some (querySyntaxError ("サポートされていない検索機能: " ++ message) d)
  else if strContains uri "resultset" ||
      strContains (jsToLower message) "result" then
    some (sruDiagnosticError ("検索結果の処理エラー: " ++ message) d)
  else if optStrTruthy d.code &&
      (match parseIntJS (jsOrDefaultStr d.code "") with
        | some n => decide (10 ≤ n)
        | none => false) then
    some (sruDiagnosticError
      ("検索エラー (コード: " ++ jsOrDefaultStr d.code "" ++ "): " ++ message) d)
  else
    none

/-- `analyzeSRUDiagnostics` (src/api/sru.ts lines 203-264): empty or absent
list yields no error; otherwise the first diagnostic matching a rule decides,
and if none matches, a generic error is built from the first diagnostic. -/
def analyzeSRUDiagnostics (diagnostics : Option (List SRUDiagnostic)) :
    Option NDLError :=
  match diagnostics with
  | none => none
  | some [] => none
  | some (d0 :: rest) =>
    match (d0 :: rest).findSome? classifyDiagnostic with
    | some e => some e
    | none =>
      some (sruDiagnosticError
        ("検索処理でエラーが発生しました: " ++ d0.message) d0)

/-! ## CQL query builder (src/utils/cql-builder.ts) -/

/-- Builder options (CQLBuilderOptionsSchema, src/schemas/sru/query-builder.ts);
operators are kept as their source string values. -/
structure CQLBuilderOptions where
  defaultOperator : String
  autoEscape : Bool
  addParentheses : Bool
  defaultTextOperator : String
deriving Repr, DecidableEq

/-- Zod defaults of `CQLBuilderOptionsSchema` as produced for the empty
options object passed by `createCQLBuilder()`. -/
def defaultBuilderOptions : CQLBuilderOptions :=
  { defaultOperator := "AND"
    autoEscape := true
    addParentheses := true
    defaultTextOperator := "=" }

/-- Builder state: validated options plus the ordered list of rendered
condition strings. -/
structure CQLQueryBuilder where
  options : CQLBuilderOptions
  conditions : List String
deriving Repr, DecidableEq

/-- `createCQLBuilder()` with no options: defaults, no conditions. -/
def createCQLBuilder : CQLQueryBuilder :=
  { options := defaultBuilderOptions, conditions := [] }

/-- Global single-character replacement, the effect of
`String.prototype.replace` with a `/x/g` single-character pattern. -/
def replaceChar (t : Char) (r : List Char) : List Char → List Char
  | [] => []
  | c :: cs => (if c = t then r else [c]) ++ replaceChar t r cs

/-- `CQLQueryBuilder.escapeValue`: `\` to `\\`, then `"` to `\"`, then `*` to
`\*`, then `?` to `\?`, as four sequential global replaces. -/
def CQLQueryBuilder.escapeValue (value : String) : String :=
  (replaceChar '?' ['\\', '?']
    (replaceChar '*' ['\\', '*']
      (replaceChar '"' ['\\', '"']
        (replaceChar '\\' ['\\', '\\'] value.toList)))).asString

/-- `CQLQueryBuilder.buildFieldCondition`: operator-specific templates, with
the `=` template as the `default` switch case. -/
def CQLQueryBuilder.buildFieldCondition (field value operator : String) :
    String :=
  if operator = "=" || operator = "exact" then
    field ++ "=\"" ++ value ++ "\""
  else if operator = "adj" then field ++ " adj \"" ++ value ++ "\""
  else if operator = "all" then field ++ " all \"" ++ value ++ "\""
  else if operator = "any" then field ++ " any \"" ++ value ++ "\""
  else if operator = "contains" then field ++ " adj \"" ++ value ++ "\""
  else if operator = "starts" then field ++ "=\"" ++ value ++ "*\""
  else if operator = "ends" then field ++ "=\"*" ++ value ++ "\""
  else field ++ "=\"" ++ value ++ "\""

/-- The `!value.trim()` blank test of `field`: the trimmed value is empty
exactly when every character of the value is whitespace. -/
def jsBlank (s : String) : Bool := s.toList.all Char.isWhitespace

/-- `CQLQueryBuilder.field`: blank values are dropped; otherwise the value is
escaped (when `autoEscape`) and the rendered condition appended. -/
def CQLQueryBuilder.field (b : CQLQueryBuilder)
    (field value : String) (operator : String := "=") : CQLQueryBuilder :=
  if jsBlank value then b
  else
    let escapedValue :=
      if b.options.autoEscape then CQLQueryBuilder.escapeValue value else value
    { b with conditions :=
        b.conditions ++
          [CQLQueryBuilder.buildFieldCondition field escapedValue operator] }

/-- `CQLQueryBuilder.title`. -/
def CQLQueryBuilder.title (b : CQLQueryBuilder) (t : String)
    (operator : String := "=") : CQLQueryBuilder :=
  b.field "title" t operator

/-- `CQLQueryBuilder.creator`. -/
def CQLQueryBuilder.creator (b : CQLQueryBuilder) (c : String)
    (operator : String := "=") : CQLQueryBuilder :=
  b.field "creator" c operator

/-- `CQLQueryBuilder.subject`. -/
def CQLQueryBuilder.subject (b : CQLQueryBuilder) (s : String)
    (operator : String := "=") : CQLQueryBuilder :=
  b.field "subject" s operator

/-- `CQLQueryBuilder.publisher`. -/
def CQLQueryBuilder.publisher (b : CQLQueryBuilder) (p : String)
    (operator : String := "=") : CQLQueryBuilder :=
  b.field "publisher" p operator

/-- `CQLQueryBuilder.isbn`: strips `-` and whitespace
(`isbn.replace(/[-\s]/g, "")`) before adding an exact condition. -/
def CQLQueryBuilder.isbn (b : CQLQueryBuilder) (isbn : String) :
    CQLQueryBuilder :=
  let cleanIsbn :=
    (isbn.toList.filter (fun c => !(c = '-' || c.isWhitespace))).asString
  b.field "isbn" cleanIsbn "="

/-- `CQLQueryBuilder.issn`. -/
def CQLQueryBuilder.issn (b : CQLQueryBuilder) (issn : String) :
    CQLQueryBuilder :=
  b.field "issn" issn "="

/-- `CQLQueryBuilder.language`: a single code goes through `field`; several
codes are rendered directly (no escaping) as `(language="v1" OR ...)`. -/
def CQLQueryBuilder.language (b : CQLQueryBuilder)
    (languages : OneOrMany String) : CQLQueryBuilder :=
  let langArray := languages.toList
  if langArray.length = 1 then
    b.field "language" (langArray.headD "") "="
  else
    let langConditions := langArray.map
      (fun lang => CQLQueryBuilder.buildFieldCondition "language" lang "=")
    { b with conditions :=
        b.conditions ++ ["(" ++ String.intercalate " OR " langConditions ++ ")"] }

/-- Date range `{ from?, to? }` (DateRangeSchema shape). -/
structure DateRange where
  fromDate : Option String
  toDate : Option String
deriving Repr, DecidableEq

/-- `CQLQueryBuilder.dateRange` condition construction. The source first
revalidates its argument against `DateRangeSchema` and throws on failure; on
the call path embedded here (`buildSimpleCQLQuery`) the argument was already
validated, so only the condition-building branch is reachable. -/
def CQLQueryBuilder.dateRange (b : CQLQueryBuilder) (range : DateRange) :
    CQLQueryBuilder :=
  let conditions :=
    (match range.fromDate with
      | some f => ["from=\"" ++ f ++ "\""]
      | none => []) ++
    (match range.toDate with
      | some t => ["until=\"" ++ t ++ "\""]
      | none => [])
  if conditions.length > 0 then
    let dateCondition :=
      if conditions.length = 1 then conditions.headD ""
      else "(" ++ String.intercalate " AND " conditions ++ ")"
    { b with conditions := b.conditions ++ [dateCondition] }
  else b

/-- `CQLQueryBuilder.anywhere`. -/
def CQLQueryBuilder.anywhere (b : CQLQueryBuilder) (text : String) :
    CQLQueryBuilder :=
  b.field "anywhere" text b.options.defaultTextOperator

/-- `CQLQueryBuilder.build`: join the accumulated conditions with the default
operator; the empty list yields `""`. -/
def CQLQueryBuilder.build (b : CQLQueryBuilder) : String :=
  if b.conditions = [] then ""
  else String.intercalate (" " ++ b.options.defaultOperator ++ " ") b.conditions

/-- `CQLQueryBuilder.and`: non-empty other and non-empty self each get their
joined expression (parenthesized when `addParentheses`) as the new two-entry
condition list; non-empty other with empty self is appended as-is. -/
def CQLQueryBuilder.and (b other : CQLQueryBuilder) : CQLQueryBuilder :=
  let otherQuery := other.build
  if otherQuery ≠ "" ∧ b.conditions.length > 0 then
    let current :=
      String.intercalate (" " ++ b.options.defaultOperator ++ " ") b.conditions
    { b with conditions :=
        [if b.options.addParentheses then "(" ++ current ++ ")" else current,
         if b.options.addParentheses then "(" ++ otherQuery ++ ")" else otherQuery] }
  else if otherQuery ≠ "" then
    { b with conditions := b.conditions ++ [otherQuery] }
  else b

/-- `CQLQueryBuilder.or`. -/
def CQLQueryBuilder.or (b other : CQLQueryBuilder) : CQLQueryBuilder :=
  let otherQuery := other.build
  if otherQuery ≠ "" ∧ b.conditions.length > 0 then
    let current :=
      String.intercalate (" " ++ b.options.defaultOperator ++ " ") b.conditions
    { b with conditions := ["(" ++ current ++ ") OR (" ++ otherQuery ++ ")"] }
  else if otherQuery ≠ "" then
    { b with conditions := b.conditions ++ [otherQuery] }
  else b

/-- `CQLQueryBuilder.not`: wrap the joined condition list in `NOT (...)`. -/
def CQLQueryBuilder.not (b : CQLQueryBuilder) : CQLQueryBuilder :=
  if b.conditions.length > 0 then
    let combined :=
      String.intercalate (" " ++ b.options.defaultOperator ++ " ") b.conditions
    { b with conditions := ["NOT (" ++ combined ++ ")"] }
  else b

/-- Result record of `validate()` (QueryValidationResultSchema shape). -/
structure QueryValidationResult where
  isValid : Bool
  query : String
  errors : List String
  warnings : List String
  complexity : Nat
deriving Repr, DecidableEq

/-- `CQLQueryBuilder.validate`: complexity from the condition count,
warnings for many conditions and for free-text conditions, an error when the
built query is empty; the final `QueryValidationResultSchema` parse only
checks the 1..10 complexity bound. -/
def CQLQueryBuilder.validate (b : CQLQueryBuilder) :
    Except NDLError QueryValidationResult :=
  let query := b.build
  let complexity := min 10 (max 1 b.conditions.length)
  let errors := if query = "" then ["Query is empty"] else []
  let warnings1 :=
    if b.conditions.length > 5 then
      ["Complex query with many conditions may be slow"]
    else []
  let complexity1 :=
    if b.conditions.length > 5 then min 10 (complexity + 2) else complexity
  let warnings2 :=
    if b.conditions.any (fun c => strContains c "anywhere") then
      ["Full-text search across all fields may return many results"]
    else []
  let complexity2 :=
    if b.conditions.any (fun c => strContains c "anywhere") then
      min 10 (complexity1 + 1)
    else complexity1
  let result : QueryValidationResult :=
    { isValid := errors.length = 0
      query := query
      errors := errors
      warnings := warnings1 ++ warnings2
      complexity := complexity2 }
  if 1 ≤ result.complexity ∧ result.complexity ≤ 10 then .ok result
  else .error (validationError "Query validation failed" (some .schemaIssues))

/-! ## Simple search parameters and their zod validation
(src/schemas/sru/query-builder.ts) -/

/-- Lexicographic code-unit comparison of JavaScript `<` on strings. -/
def jsStrLtL : List Char → List Char → Bool
  | [], [] => false
  | [], _ :: _ => true
  | _ :: _, [] => false
  | a :: as, b :: bs =>
    if a.val < b.val then true
    else if b.val < a.val then false
    else jsStrLtL as bs

/-- JavaScript `a <= b` on strings. -/
def jsStrLe (a b : String) : Bool := !(jsStrLtL b.toList a.toList)

/-- `NDLLanguageCodeSchema` enum values. -/
def ndlLanguageCodes : List String :=
  ["jpn", "eng", "chi", "kor", "fre", "ger", "rus", "spa", "ita", "por"]

/-- `NDLMaterialTypeSchema` enum values. -/
def ndlMaterialTypes : List String :=
  ["Book", "Article", "Journal", "Newspaper", "Thesis", "Map", "Music",
   "Video", "Sound", "Software", "Website", "Database"]

/-- Membership of an optional language filter in the language-code enum. -/
def langValid : Option (OneOrMany String) → Bool
  | none => true
  | some (.one c) => ndlLanguageCodes.contains c
  | some (.many l) => l.all (fun c => ndlLanguageCodes.contains c)

/-- Membership of an optional material type in the material-type enum. -/
def matValid : Option String → Bool
  | none => true
  | some t => ndlMaterialTypes.contains t

/-- The `^\d{4}(-\d{2}-\d{2})?$` pattern of `DateRangeSchema`. -/
def dateRegexOk (s : String) : Bool :=
  match s.toList with
  | [a, b, c, d] => a.isDigit && b.isDigit && c.isDigit && d.isDigit
  | [a, b, c, d, h1, e, f, h2, g, i] =>
    a.isDigit && b.isDigit && c.isDigit && d.isDigit && h1 = '-' &&
    e.isDigit && f.isDigit && h2 = '-' && g.isDigit && i.isDigit
  | _ => false

/-- The `^\d{4}-\d{3}[\dX]$` ISSN pattern of `SimpleSearchParamsSchema`. -/
def issnRegexOk (s : String) : Bool :=
  match s.toList with
  | [a, b, c, d, dash, e, f, g, h] =>
    a.isDigit && b.isDigit && c.isDigit && d.isDigit && dash = '-' &&
    e.isDigit && f.isDigit && g.isDigit && (h.isDigit || h = 'X')
  | _ => false

/-- The `^[\d\-X]+$` ISBN pattern of `SimpleSearchParamsSchema`. -/
def isbnRegexOk (s : String) : Bool :=
  !s.toList.isEmpty && s.toList.all (fun c => c.isDigit || c = '-' || c = 'X')

/-- `DateRangeSchema` acceptance: both bounds match the date pattern and,
when both are present, `from <= to` (the `refine` clause). -/
def dateRangeValid (r : DateRange) : Bool :=
  (match r.fromDate with | some f => dateRegexOk f | none => true) &&
  (match r.toDate with | some t => dateRegexOk t | none => true) &&
  (match r.fromDate, r.toDate with
    | some f, some t => jsStrLe f t
    | _, _ => true)

/-- Exclusion sub-bag of `SimpleSearchParamsSchema.exclude`. -/
structure ExcludeParams where
  title : Option String := none
  creator : Option String := none
  subject : Option String := none
  language : Option (OneOrMany String) := none
  type : Option String := none
deriving Repr, DecidableEq

/-- `SimpleSearchParams` (field names and order of the schema object). -/
structure SimpleSearchParams where
  title : Option String := none
  creator : Option String := none
  subject : Option String := none
  publisher : Option String := none
  isbn : Option String := none
  issn : Option String := none
  jpno : Option String := none
  language : Option (OneOrMany String) := none
  dateRange : Option DateRange := none
  type : Option String := none
  anywhere : Option String := none
  description : Option String := none
  exclude : Option ExcludeParams := none
deriving Repr, DecidableEq

/-- `SimpleSearchParamsSchema` acceptance for the exclusion sub-bag. -/
def excludeValid (e : ExcludeParams) : Bool :=
  langValid e.language && matValid e.type

/-- `SimpleSearchParamsSchema` acceptance: the per-field constraints checked
by `safeParse` at the top of `buildSimpleCQLQuery`. -/
def validateSimpleSearchParams (p : SimpleSearchParams) : Bool :=
  (match p.isbn with | some s => isbnRegexOk s | none => true) &&
  (match p.issn with | some s => issnRegexOk s | none => true) &&
  langValid p.language &&
  (match p.dateRange with | some r => dateRangeValid r | none => true) &&
  matValid p.type &&
  (match p.exclude with | some e => excludeValid e | none => true)

/-- JS truthiness of the `language` field (an array is truthy even when
empty; a single code is truthy when non-empty). -/
def optLangTruthy : Option (OneOrMany String) → Bool
  | none => false
  | some (.one s) => s ≠ ""
  | some (.many _) => true

/-! ## Parameter translator (src/utils/cql-builder.ts, buildSimpleCQLQuery) -/

/-- The main-builder portion of `buildSimpleCQLQuery`: each truthy field
applied in source order (title, creator, subject, publisher, isbn, issn,
language, dateRange, type, anywhere, description). -/
def simpleMainBuilder (p : SimpleSearchParams) : CQLQueryBuilder :=
  let b := createCQLBuilder
  let b := if optStrTruthy p.title then b.title (p.title.getD "") else b
  let b := if optStrTruthy p.creator then b.creator (p.creator.getD "") else b
  let b := if optStrTruthy p.subject then b.subject (p.subject.getD "") else b
  let b :=
    if optStrTruthy p.publisher then b.publisher (p.publisher.getD "") else b
  let b := if optStrTruthy p.isbn then b.isbn (p.isbn.getD "") else b
  let b := if optStrTruthy p.issn then b.issn (p.issn.getD "") else b
  let b :=
    if optLangTruthy p.language then b.language (p.language.getD (.one ""))
    else b
  let b :=
    match p.dateRange with
    | some r => b.dateRange r
    | none => b
  let b := if optStrTruthy p.type then b.field "type" (p.type.getD "") else b
  let b := if optStrTruthy p.anywhere then b.anywhere (p.anywhere.getD "") else b
  let b :=
    if optStrTruthy p.description then
      b.field "description" (p.description.getD "")
    else b
  b

/-- The exclusion-builder portion of `buildSimpleCQLQuery`: only title,
creator, language and type of the exclude sub-bag are applied (the schema
also accepts `exclude.subject`, which this code never reads). -/
def simpleExcludeBuilder (e : ExcludeParams) : CQLQueryBuilder :=
  let b := createCQLBuilder
  let b := if optStrTruthy e.title then b.title (e.title.getD "") else b
  let b := if optStrTruthy e.creator then b.creator (e.creator.getD "") else b
  let b :=
    if optLangTruthy e.language then b.language (e.language.getD (.one ""))
    else b
  let b := if optStrTruthy e.type then b.field "type" (e.type.getD "") else b
  b

/-- `buildSimpleCQLQuery` (src/utils/cql-builder.ts lines 337-422): validate
the params, apply the present fields, AND-combine the negated exclusion
builder when its query is non-empty, and return the built string. -/
def buildSimpleCQLQuery (params : SimpleSearchParams) :
    Except NDLError String :=
  if validateSimpleSearchParams params then
    let b := simpleMainBuilder params
    let b :=
      match params.exclude with
      | some e =>
        let excludeBuilder := simpleExcludeBuilder e
        if excludeBuilder.build ≠ "" then b.and excludeBuilder.not else b
      | none => b
    .ok b.build
  else
    .error (validationError
      "検索パラメータの形式が正しくありません。検索条件を確認してください。"
      (some .schemaIssues))

/-! ## SRU response model (src/api/sru.ts, src/schemas/sru/response.ts)

The structured-markup parser that turns response text into nested records is
an external collaborator; its output shape is modelled by the structures
below, and the inner per-record XML parse is an explicit function parameter
`parseRecordData` (returning `none` where the parser throws). -/

/-- `recordData` union: a string payload, or one of the non-string XML
object forms (which the extraction code skips via its `typeof` check). -/
inductive RecordData where
  | str (s : String)
  | obj
deriving Repr, DecidableEq

/-- `SRURecordSchema` record shape. -/
structure SRURecord where
  recordSchema : String
  recordPacking : String
  recordData : RecordData
  recordPosition : Option Nat := none
  recordIdentifier : Option String := none
deriving Repr, DecidableEq

/-- `searchRetrieveResponse` payload. `record` stands for the source's
`records?.record` access and `diagnostic` for `diagnostics?.diagnostic`
(both levels of optionality collapse into one `Option`). -/
structure SRUSearchRetrieveResponseData where
  numberOfRecords : Option Nat := none
  resultSetId : Option String := none
  record : Option (OneOrMany SRURecord) := none
  nextRecordPosition : Option Nat := none
  diagnostic : Option (OneOrMany SRUDiagnostic) := none
deriving Repr, DecidableEq

/-- Discriminated `ParsedSRUResponse` union. The explain payload carries no
field read by the embedded code. -/
inductive ParsedSRUResponse where
  | searchRetrieve (response : SRUSearchRetrieveResponseData)
  | explain
deriving Repr, DecidableEq

/-- `SRUSearchRetrieveRequest` fields read by the embedded code. -/
structure SRUSearchRetrieveRequest where
  query : String
  startRecord : Option Nat := none
  maximumRecords : Option Nat := none
  recordSchema : Option String := none
  version : Option String := none
deriving Repr, DecidableEq

/-! ## Pagination calculator (src/api/sru.ts, extractSRUPaginationInfo) -/

/-- Next/previous page request parameters. -/
structure SRUPageParams where
  startRecord : Nat
  maximumRecords : Nat
deriving Repr, DecidableEq

/-- `SRUPaginationInfo` record. -/
structure SRUPaginationInfo where
  totalResults : Nat
  currentPage : Nat
  totalPages : Nat
  itemsPerPage : Nat
  startIndex : Nat
  nextRecordPosition : Option Nat := none
  resultSetId : Option String := none
  hasPreviousPage : Bool
  hasNextPage : Bool
  nextPageParams : Option SRUPageParams
  previousPageParams : Option SRUPageParams
deriving Repr, DecidableEq

/-- `extractSRUPaginationInfo` (src/api/sru.ts lines 960-1014). The
`||`-defaults make `itemsPerPage ≥ 1` and `startIndex ≥ 1`, so
`Math.floor((startIndex - 1) / itemsPerPage)` is natural division and
`Math.ceil(totalResults / itemsPerPage)` is
`(totalResults + itemsPerPage - 1) / itemsPerPage`. -/
def extractSRUPaginationInfo (response : ParsedSRUResponse)
    (requestParams : SRUSearchRetrieveRequest) : SRUPaginationInfo :=
  match response with
  | .explain =>
    { totalResults := 0
      currentPage := 1
      totalPages := 0
      itemsPerPage := jsOrDefault requestParams.maximumRecords 10
      startIndex := jsOrDefault requestParams.startRecord 1
      hasPreviousPage := false
      hasNextPage := false
      nextPageParams := none
      previousPageParams := none }
  | .searchRetrieve r =>
    let totalResults := jsOrDefault r.numberOfRecords 0
    let itemsPerPage := jsOrDefault requestParams.maximumRecords 10
    let startIndex := jsOrDefault requestParams.startRecord 1
    let currentPage := (startIndex - 1) / itemsPerPage + 1
    let totalPages := (totalResults + itemsPerPage - 1) / itemsPerPage
    { totalResults := totalResults
      currentPage := currentPage
      totalPages := totalPages
      itemsPerPage := itemsPerPage
      startIndex := startIndex
      nextRecordPosition := r.nextRecordPosition
      resultSetId := r.resultSetId
      hasPreviousPage := decide (currentPage > 1)
      hasNextPage := decide (currentPage < totalPages)
      nextPageParams :=
        if currentPage < totalPages then
          some { startRecord := startIndex + itemsPerPage,
                 maximumRecords := itemsPerPage }
        else none
      previousPageParams :=
        if currentPage > 1 then
          some { startRecord := max 1 (startIndex - itemsPerPage),
                 maximumRecords := itemsPerPage }
        else none }

/-! ## Item extraction (src/api/sru.ts, extractSRUSearchItems) -/

/-- Normalized search item (`SRUSearchItem` interface). -/
structure SRUSearchItem where
  title : String
  identifier : Option String := none
  creators : Option (List String) := none
  publishers : Option (List String) := none
  date : Option String := none
  subjects : Option (List String) := none
  type : Option String := none
  language : Option String := none
  rawData : RecordData
deriving Repr, DecidableEq

/-- Dublin Core payload (`srw_dc:dc`) as delivered by the XML collaborator;
scalar values arrive stringified. -/
structure DCRecord where
  title : Option String := none
  creator : Option (OneOrMany String) := none
  date : Option String := none
  language : Option String := none
  type : Option String := none
  publisher : Option (OneOrMany String) := none
  subject : Option (OneOrMany String) := none
deriving Repr, DecidableEq

/-- `foaf:Agent` node. -/
structure FoafAgent where
  name : Option String := none
deriving Repr, DecidableEq

/-- `dcterms:publisher` node. -/
structure PublisherNode where
  agent : Option FoafAgent := none
deriving Repr, DecidableEq

/-- `dcterms:language` value: a plain string or a typed XML node with
`@rdf:datatype` and `#text` attributes. -/
inductive RDFLangVal where
  | str (s : String)
  | node (datatype : Option String) (text : Option String)
deriving Repr, DecidableEq

/-- `dcndl:BibResource` fields read by the extraction code. -/
structure BibResource where
  title : Option String := none
  creator : Option (OneOrMany String) := none
  publisher : Option PublisherNode := none
  date : Option String := none
  language : Option RDFLangVal := none
deriving Repr, DecidableEq

/-- `rdf:RDF` payload. -/
structure RDFRecord where
  bibResource : Option (OneOrMany BibResource) := none
deriving Repr, DecidableEq

/-- Result of parsing one record's escaped XML content. -/
structure ParsedRecordData where
  dc : Option DCRecord := none
  rdf : Option RDFRecord := none
deriving Repr, DecidableEq

/-- JS truthiness of a string-or-array value (arrays are truthy even when
empty; a lone string is truthy when non-empty). -/
def oomStrTruthy : OneOrMany String → Bool
  | .one s => s ≠ ""
  | .many _ => true

/-- Truthiness of the `dcterms:language` value. -/
def rdfLangTruthy : RDFLangVal → Bool
  | .str s => s ≠ ""
  | .node _ _ => true

/-- The language-string computation of the RDF branch:
`typeof lang === "object" && lang["@rdf:datatype"]` selects
`String(lang["#text"] || lang)`, otherwise `String(lang)`; stringifying the
node object itself yields `"[object Object]"`. -/
def rdfLangString : RDFLangVal → String
  | .str s => s
  | .node datatype text =>
    if optStrTruthy datatype then
      match text with
      | some t => if t ≠ "" then t else "[object Object]"
      | none => "[object Object]"
    else "[object Object]"

/-- The `srw_dc:dc` branch of the per-record extraction: each truthy field
overrides the item's default. -/
def applyDC (dc : DCRecord) (item : SRUSearchItem) : SRUSearchItem :=
  let item :=
    match dc.title with
    | some t => if t ≠ "" then { item with title := t } else item
    | none => item
  let item :=
    match dc.creator with
    | some c =>
      if oomStrTruthy c then { item with creators := some c.toList } else item
    | none => item
  let item :=
    match dc.date with
    | some d => if d ≠ "" then { item with date := some d } else item
    | none => item
  let item :=
    match dc.language with
    | some l => if l ≠ "" then { item with language := some l } else item
    | none => item
  let item :=
    match dc.type with
    | some t => if t ≠ "" then { item with type := some t } else item
    | none => item
  let item :=
    match dc.publisher with
    | some p =>
      if oomStrTruthy p then { item with publishers := some p.toList } else item
    | none => item
  let item :=
    match dc.subject with
    | some s =>
      if oomStrTruthy s then { item with subjects := some s.toList } else item
    | none => item
  item

/-- Field assignments of the RDF branch for the selected `BibResource`
(the first one with a truthy `dcterms:title`). -/
def applyBibResource (br : BibResource) (item : SRUSearchItem) :
    SRUSearchItem :=
  let item := { item with title := br.title.getD "" }
  let item :=
    match br.creator with
    | some c =>
      if oomStrTruthy c then { item with creators := some c.toList } else item
    | none => item
  let item :=
    match br.publisher with
    | some pn =>
      match pn.agent with
      | some agent =>
        match agent.name with
        | some nm =>
          if nm ≠ "" then { item with publishers := some [nm] } else item
        | none => item
      | none => item
    | none => item
  let item :=
    match br.date with
    | some d => if d ≠ "" then { item with date := some d } else item
    | none => item
  let item :=
    match br.language with
    | some lang =>
      if rdfLangTruthy lang then
        { item with language := some (rdfLangString lang) }
      else item
    | none => item
  item

/-- The `rdf:RDF` branch: scan the bib resources in order and apply the
first one carrying a truthy title. -/
def applyRDF (rdf : Option RDFRecord) (item : SRUSearchItem) : SRUSearchItem :=
  match rdf with
  | none => item
  | some r =>
    match r.bibResource with
    | none => item
    | some brs =>
      match brs.toList.find? (fun br => optStrTruthy br.title) with
      | some br => applyBibResource br item
      | none => item

/-- `recordIdentifier` assignment at the end of the `try` block. -/
def applyIdentifier (record : SRURecord) (item : SRUSearchItem) :
    SRUSearchItem :=
  match record.recordIdentifier with
  | some id => if id ≠ "" then { item with identifier := some id } else item
  | none => item

/-- The per-record mapper of `extractSRUSearchItems`: defaults, optional
inner XML parse (a throwing parse keeps the defaults, identifier included),
DC then RDF field extraction, then the identifier. -/
def extractItemFromRecord (parseRecordData : String → Option ParsedRecordData)
    (record : SRURecord) : SRUSearchItem :=
  let item : SRUSearchItem :=
    { title := "Unknown Title", rawData := record.recordData }
  match record.recordData with
  | .obj => applyIdentifier record item
  | .str s =>
    match parseRecordData s with
    | none => item
    | some pd =>
      let item :=
        match pd.dc with
        | some dc => applyDC dc item
        | none => item
      let item := applyRDF pd.rdf item
      applyIdentifier record item

/-- `extractSRUSearchItems` (src/api/sru.ts): empty for explain responses
and absent record lists, otherwise the normalized record array mapped
through the per-record extraction. -/
def extractSRUSearchItems (parseRecordData : String → Option ParsedRecordData)
    (response : ParsedSRUResponse) : List SRUSearchItem :=
  match response with
  | .explain => []
  | .searchRetrieve r =>
    match r.record with
    | none => []
    | some records =>
      records.toList.map (extractItemFromRecord parseRecordData)

/-! ## Search orchestrator (src/api/sru.ts, executeSearchRetrieve / searchSRU)

The transport boundary (`executeSearchRetrieveRaw`: HTTP dispatch, status
mapping, XML parsing) is an external collaborator here; its outcome — either
an `NDLError` or a parsed response with the optional raw XML text — is an
explicit parameter. -/

/-- Echoed query information of the search response. -/
structure SRUQueryEcho where
  cql : String
  schema : Option String := none
deriving Repr, DecidableEq

/-- High-level `SRUSearchResponse`. -/
structure SRUSearchResponse where
  items : List SRUSearchItem
  pagination : SRUPaginationInfo
  query : SRUQueryEcho
  diagnostics : Option (List SRUDiagnostic) := none
  rawXML : Option String := none
deriving Repr, DecidableEq

/-- `executeSearchRetrieve` (src/api/sru.ts lines 273-330) as a function of
the transport outcome: propagate transport errors, reject explain payloads,
normalize and classify diagnostics (authoritative failures), then assemble
items, pagination and the echoed query. -/
def executeSearchRetrieve (parseRecordData : String → Option ParsedRecordData)
    (params : SRUSearchRetrieveRequest)
    (rawOutcome : Except NDLError (ParsedSRUResponse × Option String)) :
    Except NDLError SRUSearchResponse :=
  match rawOutcome with
  | .error e => .error e
  | .ok (response, rawXML) =>
    match response with
    | .explain =>
      .error (validationError
        "Expected searchRetrieve response but got explain response")
    | .searchRetrieve r =>
      let diagnosticArray := r.diagnostic.map OneOrMany.toList
      match analyzeSRUDiagnostics diagnosticArray with
      | some e => .error e
      | none =>
        .ok { items := extractSRUSearchItems parseRecordData response
              pagination := extractSRUPaginationInfo response params
              query := { cql := params.query, schema := params.recordSchema }
              diagnostics := diagnosticArray
              rawXML :=
                match rawXML with
                | some s => if s = "" then none else some s
                | none => none }

/-- Client-side sort configuration (`SRUSearchOptions.sortBy`). -/
structure SRUSortBy where
  field : String
  order : Option String := none
deriving Repr, DecidableEq

/-- Client-side date filter bounds (`SRUSearchOptions.filter.dateRange`). -/
structure SRUFilterDateRange where
  fromDate : Option String := none
  toDate : Option String := none
deriving Repr, DecidableEq

/-- Client-side filter configuration (`SRUSearchOptions.filter`). -/
structure SRUFilterOptions where
  language : Option (OneOrMany String) := none
  dateRange : Option SRUFilterDateRange := none
  creator : Option String := none
deriving Repr, DecidableEq

/-- `SRUSearchOptions`. -/
structure SRUSearchOptions where
  maximumRecords : Option Nat := none
  startRecord : Option Nat := none
  recordSchema : Option String := none
  version : Option String := none
  sortBy : Option SRUSortBy := none
  filter : Option SRUFilterOptions := none
  includeRawXML : Option Bool := none
deriving Repr, DecidableEq

/-- First match of the `/(\d{4})/` pattern: the leftmost run of four
consecutive decimal digits. -/
def firstYearMatch : List Char → Option String
  | a :: b :: c :: d :: rest =>
    if a.isDigit && b.isDigit && c.isDigit && d.isDigit then
      some ([a, b, c, d].asString)
    else firstYearMatch (b :: c :: d :: rest)
  | _ => none

/-- Language filter predicate:
`item.language && languages.includes(item.language)`. -/
def keepByLanguage (langs : List String) (item : SRUSearchItem) : Bool :=
  match item.language with
  | some l => l ≠ "" && langs.contains l
  | none => false

/-- Date-range filter predicate: items without a date or without a
four-digit year are kept; otherwise the year is compared as a string
against the truthy bounds. -/
def keepByDateRange (fromD toD : Option String) (item : SRUSearchItem) :
    Bool :=
  match item.date with
  | none => true
  | some d =>
    if d = "" then true
    else
      match firstYearMatch d.toList with
      | none => true
      | some year =>
        if optStrTruthy fromD && jsStrLtL year.toList (fromD.getD "").toList then
          false
        else if optStrTruthy toD &&
            jsStrLtL (toD.getD "").toList year.toList then
          false
        else true

/-- Creator filter predicate: some creator contains the filter string,
case-insensitively; items without creators are dropped
(`item.creators?.some(...)` is falsy). -/
def keepByCreator (c : String) (item : SRUSearchItem) : Bool :=
  match item.creators with
  | none => false
  | some cs => cs.any (fun cr => strContains (jsToLower cr) (jsToLower c))

/-- The client-side filtering block of `searchSRU`. -/
def applyFilter (filter : Option SRUFilterOptions)
    (items : List SRUSearchItem) : List SRUSearchItem :=
  match filter with
  | none => items
  | some f =>
    let items :=
      if optLangTruthy f.language then
        items.filter (keepByLanguage (f.language.getD (.one "")).toList)
      else items
    let items :=
      match f.dateRange with
      | some dr => items.filter (keepByDateRange dr.fromDate dr.toDate)
      | none => items
    let items :=
      if optStrTruthy f.creator then
        items.filter (keepByCreator (f.creator.getD ""))
      else items
    items

/-- Sign-based comparison of two strings by code units, modelling
`localeCompare` on all-digit year strings (where the default collation
agrees with code-unit order). -/
def compareStr (a b : String) : Int :=
  if jsStrLtL a.toList b.toList then -1
  else if jsStrLtL b.toList a.toList then 1
  else 0

/-- Year key of the date sort: `a.date?.match(/(\d{4})/)?.[1] || "0000"`. -/
def sortYear (d : Option String) : String :=
  match d with
  | none => "0000"
  | some s =>
    match firstYearMatch s.toList with
    | some y => y
    | none => "0000"

/-- The `switch (field)` comparison of the sorting block; `localeCompareJa`
stands for the ICU collator `localeCompare(..., "ja", { numeric: true })`
of the title and creator cases. -/
def sortComparison (localeCompareJa : String → String → Int) (field : String)
    (a b : SRUSearchItem) : Int :=
  if field = "title" then localeCompareJa a.title b.title
  else if field = "creator" then
    localeCompareJa ((a.creators.getD []).headD "") ((b.creators.getD []).headD "")
  else if field = "date" then compareStr (sortYear a.date) (sortYear b.date)
  else 0

/-- The client-side sorting block of `searchSRU`: a stable sort of the item
list under the field comparison, reversed by `order === "desc"`. -/
def applySort (localeCompareJa : String → String → Int)
    (sortBy : Option SRUSortBy) (items : List SRUSearchItem) :
    List SRUSearchItem :=
  match sortBy with
  | none => items
  | some sb =>
    let order := sb.order.getD "asc"
    items.mergeSort (fun a b =>
      let comparison := sortComparison localeCompareJa sb.field a b
      (if order = "desc" then -comparison else comparison) ≤ 0)

/-- `searchSRU` (src/api/sru.ts lines 1093-1202) as a function of the
transport outcome: translate the simple parameters to CQL, short-circuit an
empty query into a well-formed empty success without touching the outcome,
otherwise dispatch, then filter and sort the returned items. -/
def searchSRU (parseRecordData : String → Option ParsedRecordData)
    (localeCompareJa : String → String → Int)
    (searchParams : SimpleSearchParams) (options : Option SRUSearchOptions)
    (rawOutcome : Except NDLError (ParsedSRUResponse × Option String)) :
    Except NDLError SRUSearchResponse :=
  match buildSimpleCQLQuery searchParams with
  | .error e => .error e
  | .ok cqlQuery =>
    if cqlQuery = "" then
      .ok { items := []
            pagination :=
              { totalResults := 0
                currentPage := 1
                totalPages := 0
                itemsPerPage := jsOrDefault (options.bind (·.maximumRecords)) 10
                startIndex := jsOrDefault (options.bind (·.startRecord)) 1
                hasPreviousPage := false
                hasNextPage := false
                nextPageParams := none
                previousPageParams := none }
            query :=
              { cql := ""
                schema :=
                  some (jsOrDefaultStr (options.bind (·.recordSchema)) "dcndl") } }
    else
      let sruParams : SRUSearchRetrieveRequest :=
        { query := cqlQuery
          maximumRecords := some (jsOrDefault (options.bind (·.maximumRecords)) 10)
          startRecord := some (jsOrDefault (options.bind (·.startRecord)) 1)
          recordSchema :=
            some (jsOrDefaultStr (options.bind (·.recordSchema)) "dcndl")
          version := some (jsOrDefaultStr (options.bind (·.version)) "1.2") }
      match executeSearchRetrieve parseRecordData sruParams rawOutcome with
      | .error e => .error e
      | .ok result =>
        let items := applyFilter (options.bind (·.filter)) result.items
        let items := applySort localeCompareJa (options.bind (·.sortBy)) items
        .ok { result with items := items }

/-! ## Spec-side restatements

Definitions in this section follow the specification's wording (for
refinement-style claims) rather than the source text; each theorem relates
them to the source-side embeddings above. -/

/-- The classifier's rules as the specification presents them: an explicit
priority-ordered list, checked left to right on one diagnostic. -/
def diagnosticRules : List (SRUDiagnostic → Option NDLError) :=
  [fun d =>
    if strContains (jsOrDefaultStr d.uri "") "query/syntax" ||
        strContains (jsToLower d.message) "syntax" then
      some (querySyntaxError ("CQLクエリの構文エラー: " ++ d.message) d)
    else none,
   fun d =>
    if strContains (jsOrDefaultStr d.uri "") "query/feature" ||
        strContains (jsToLower d.message) "unsupported" then
      some (querySyntaxError ("サポートされていない検索機能: " ++ d.message) d)
    else none,
   fun d =>
    if strContains (jsOrDefaultStr d.uri "") "resultset" ||
        strContains (jsToLower d.message) "result" then
      some (sruDiagnosticError ("検索結果の処理エラー: " ++ d.message) d)
    else none,
   fun d =>
    if optStrTruthy d.code &&
        (match parseIntJS (jsOrDefaultStr d.code "") with
          | some n => decide (10 ≤ n)
          | none => false) then
      some (sruDiagnosticError
        ("検索エラー (コード: " ++ jsOrDefaultStr d.code "" ++ "): " ++
          d.message) d)
    else none]

/-- Spec-side classifier: empty or absent input yields no failure; otherwise
the diagnostics are scanned in order, each checked against the rules in
priority order, and the first match decides; with no match anywhere, a
generic error is built from the first diagnostic. -/
def classifySpec (diagnostics : Option (List SRUDiagnostic)) :
    Option NDLError :=
  match diagnostics with
  | none => none
  | some [] => none
  | some (d0 :: rest) =>
    match (d0 :: rest).findSome?
        (fun d => diagnosticRules.findSome? (fun rule => rule d)) with
    | some e => some e
    | none =>
      some (sruDiagnosticError
        ("検索処理でエラーが発生しました: " ++ d0.message) d0)

/-- The spec's pagination-state formulas relative to the inputs
`(totalResults, itemsPerPage, startIndex)`. -/
def paginationFormulas (total ipp si : Nat) (p : SRUPaginationInfo) : Prop :=
  p.totalResults = total ∧ p.itemsPerPage = ipp ∧ p.startIndex = si ∧
  p.currentPage = (si - 1) / ipp + 1 ∧
  p.totalPages = total ⌈/⌉ ipp ∧
  p.hasNextPage = decide (p.currentPage < p.totalPages) ∧
  p.hasPreviousPage = decide (1 < p.currentPage) ∧
  p.nextPageParams =
    (if p.currentPage < p.totalPages then
      some { startRecord := si + ipp, maximumRecords := ipp }
    else none) ∧
  p.previousPageParams =
    (if 1 < p.currentPage then
      some { startRecord := max 1 (si - ipp), maximumRecords := ipp }
    else none)

/-- The spec's standalone pagination invariant on a returned state. -/
def paginationClaimInvariant (p : SRUPaginationInfo) : Prop :=
  p.totalPages = p.totalResults ⌈/⌉ p.itemsPerPage ∧
  p.currentPage = (p.startIndex - 1) / p.itemsPerPage + 1 ∧
  p.hasNextPage = decide (p.currentPage < p.totalPages) ∧
  p.hasPreviousPage = decide (1 < p.currentPage)

/-! ## Helper lemmas -/

theorem jsOrDefault_some_zero_default (n : Nat) : jsOrDefault (some n) 0 = n := by
  show (if n = 0 then 0 else n) = n
  split <;> omega

theorem jsOrDefault_some_pos (n d : Nat) (h : 1 ≤ n) :
    jsOrDefault (some n) d = n := by
  show (if n = 0 then d else n) = n
  split <;> omega

theorem jsOrDefault_pos (o : Option Nat) (d : Nat) (hd : 1 ≤ d) :
    1 ≤ jsOrDefault o d := by
  unfold jsOrDefault
  match o with
  | none => exact hd
  | some n => dsimp only; split <;> omega

theorem classifyDiagnostic_eq_rules (d : SRUDiagnostic) :
    diagnosticRules.findSome? (fun rule => rule d) = classifyDiagnostic d := by
  unfold diagnosticRules classifyDiagnostic
  simp only [List.findSome?_cons, List.findSome?_nil]
  split_ifs <;> rfl

theorem analyze_eq_classifySpec : analyzeSRUDiagnostics = classifySpec := by
  funext diagnostics
  match diagnostics with
  | none => rfl
  | some [] => rfl
  | some (d0 :: rest) =>
    unfold analyzeSRUDiagnostics classifySpec
    rw [show (fun d => diagnosticRules.findSome? (fun rule => rule d)) =
      classifyDiagnostic from funext classifyDiagnostic_eq_rules]

/-! ## Claims -/

/-- C1: the diagnostic classifier returns null for an empty or absent list;
otherwise it scans the diagnostics in order, checks the four rules in
priority order per diagnostic, returns on the first match, and falls back to
a generic service-diagnostic error built from the first diagnostic; a
message containing "syntax" case-insensitively yields the query-syntax
category, and code "15" with no other markers yields the service-diagnostic
category. -/
theorem analyzeSRUDiagnostics_spec :
    analyzeSRUDiagnostics none = none ∧
    analyzeSRUDiagnostics (some []) = none ∧
    analyzeSRUDiagnostics = classifySpec ∧
    (∀ uri code msg details,
      strContains (jsToLower msg) "syntax" = true →
      ∃ e, analyzeSRUDiagnostics (some [⟨uri, code, msg, details⟩]) = some e ∧
        e.type = "query_syntax") ∧
    (∀ uri msg details,
      strContains (jsOrDefaultStr uri "") "query/syntax" = false →
      strContains (jsToLower msg) "syntax" = false →
      strContains (jsOrDefaultStr uri "") "query/feature" = false →
      strContains (jsToLower msg) "unsupported" = false →
      strContains (jsOrDefaultStr uri "") "resultset" = false →
      strContains (jsToLower msg) "result" = false →
      ∃ e, analyzeSRUDiagnostics (some [⟨uri, some "15", msg, details⟩]) =
        some e ∧ e.type = "sru_diagnostic") := by
  refine ⟨rfl, rfl, analyze_eq_classifySpec, ?_, ?_⟩
  · intro uri code msg details h
    have heq : analyzeSRUDiagnostics (some [⟨uri, code, msg, details⟩]) =
        some (querySyntaxError ("CQLクエリの構文エラー: " ++ msg)
          ⟨uri, code, msg, details⟩) := by
      unfold analyzeSRUDiagnostics
      simp only [List.findSome?_cons, List.findSome?_nil]
      unfold classifyDiagnostic
      simp only [h, Bool.or_true, if_true]
    exact ⟨_, heq, rfl⟩
  · intro uri msg details h1 h2 h3 h4 h5 h6
    have heq : analyzeSRUDiagnostics (some [⟨uri, some "15", msg, details⟩]) =
        some (sruDiagnosticError ("検索エラー (コード: " ++ "15" ++ "): " ++ msg)
          ⟨uri, some "15", msg, details⟩) := by
      unfold analyzeSRUDiagnostics
      simp only [List.findSome?_cons, List.findSome?_nil]
      unfold classifyDiagnostic
      simp only [h1, h2, h3, h4, h5, h6, Bool.or_self, if_false]
      rfl
    exact ⟨_, heq, rfl⟩

/-- C1 witness: a diagnostic whose message contains "Syntax" classifies with
the query-syntax category, and a diagnostic with code "15" and no markers
classifies with the service-diagnostic category. -/
theorem analyzeSRUDiagnostics_spec_witness :
    (∃ e, analyzeSRUDiagnostics
        (some [⟨none, none, "Invalid CQL Syntax", none⟩]) = some e ∧
      e.type = "query_syntax") ∧
    (∃ e, analyzeSRUDiagnostics
        (some [⟨some "info:srw/diagnostic/1/15", some "15",
          "something bad happened", none⟩]) = some e ∧
      e.type = "sru_diagnostic") := by
  constructor
  · exact analyzeSRUDiagnostics_spec.2.2.2.1 none none "Invalid CQL Syntax"
      none rfl
  · exact analyzeSRUDiagnostics_spec.2.2.2.2 (some "info:srw/diagnostic/1/15")
      "something bad happened" none rfl rfl rfl rfl rfl rfl

/-- C2: on a search-retrieve response the pagination calculator returns the
page state given by the spec's formulas (floor-based current page,
ceiling-based total pages, next/previous parameters present exactly when a
next/previous page exists), and the three quoted instances
(7208/3/1, 5663/5/6, and zero results) compute as claimed. -/
theorem extractSRUPaginationInfo_formulas :
    (∀ (total ipp si : Nat) (r : SRUSearchRetrieveResponseData)
      (params : SRUSearchRetrieveRequest),
      r.numberOfRecords = some total →
      params.maximumRecords = some ipp →
      params.startRecord = some si →
      1 ≤ ipp → 1 ≤ si →
      paginationFormulas total ipp si
        (extractSRUPaginationInfo (.searchRetrieve r) params)) ∧
    ((extractSRUPaginationInfo
        (.searchRetrieve { numberOfRecords := some 7208 })
        { query := "q", maximumRecords := some 3,
          startRecord := some 1 }).totalPages = 2403 ∧
      (extractSRUPaginationInfo
        (.searchRetrieve { numberOfRecords := some 7208 })
        { query := "q", maximumRecords := some 3,
          startRecord := some 1 }).currentPage = 1 ∧
      (extractSRUPaginationInfo
        (.searchRetrieve { numberOfRecords := some 7208 })
        { query := "q", maximumRecords := some 3,
          startRecord := some 1 }).hasNextPage = true ∧
      (extractSRUPaginationInfo
        (.searchRetrieve { numberOfRecords := some 7208 })
        { query := "q", maximumRecords := some 3,
          startRecord := some 1 }).nextPageParams =
        some { startRecord := 4, maximumRecords := 3 }) ∧
    ((extractSRUPaginationInfo
        (.searchRetrieve { numberOfRecords := some 5663 })
        { query := "q", maximumRecords := some 5,
          startRecord := some 6 }).currentPage = 2) ∧
    ((extractSRUPaginationInfo
        (.searchRetrieve { numberOfRecords := some 0 })
        { query := "q", maximumRecords := some 5,
          startRecord := some 1 }).totalPages = 0 ∧
      (extractSRUPaginationInfo
        (.searchRetrieve { numberOfRecords := some 0 })
        { query := "q", maximumRecords := some 5,
          startRecord := some 1 }).hasNextPage = false) := by
  refine ⟨?_, by decide, by decide, by decide⟩
  intro total ipp si r params hr hm hs hipp hsi
  unfold paginationFormulas extractSRUPaginationInfo
  dsimp only
  rw [hr, hm, hs, jsOrDefault_some_zero_default,
    jsOrDefault_some_pos ipp 10 hipp, jsOrDefault_some_pos si 1 hsi]
  exact ⟨rfl, rfl, rfl, rfl, rfl, rfl, rfl, rfl, rfl⟩

/-- C2 witness: the formulas instantiated at `(5663, 5, 6)`. -/
theorem extractSRUPaginationInfo_formulas_witness :
    paginationFormulas 5663 5 6
      (extractSRUPaginationInfo
        (.searchRetrieve { numberOfRecords := some 5663 })
        { query := "q", maximumRecords := some 5, startRecord := some 6 }) :=
  extractSRUPaginationInfo_formulas.1 5663 5 6
    { numberOfRecords := some 5663 }
    { query := "q", maximumRecords := some 5, startRecord := some 6 }
    rfl rfl rfl (by decide) (by decide)

/-! ## Escaping round-trip (claim C8) -/

/-- Character-level form of `escapeValue`. -/
def escapeChars (l : List Char) : List Char :=
  replaceChar '?' ['\\', '?']
    (replaceChar '*' ['\\', '*']
      (replaceChar '"' ['\\', '"']
        (replaceChar '\\' ['\\', '\\'] l)))

/-- Per-character escape segment: the four escaped characters receive a
backslash, every other character is kept. -/
def escSeg (c : Char) : List Char :=
  if c = '\\' ∨ c = '"' ∨ c = '*' ∨ c = '?' then ['\\', c] else [c]

/-- Spec-side reversal of the escaping: a backslash followed by one of the
four escaped characters collapses to that character. -/
def unescapeChars : List Char → List Char
  | [] => []
  | [c] => [c]
  | c1 :: c2 :: rest =>
    if c1 = '\\' ∧ (c2 = '\\' ∨ c2 = '"' ∨ c2 = '*' ∨ c2 = '?') then
      c2 :: unescapeChars rest
    else c1 :: unescapeChars (c2 :: rest)

/-- String-level reversal of `escapeValue`. -/
def unescapeValue (s : String) : String :=
  (unescapeChars s.toList).asString

theorem replaceChar_append (t : Char) (r xs ys : List Char) :
    replaceChar t r (xs ++ ys) = replaceChar t r xs ++ replaceChar t r ys := by
  induction xs with
  | nil => rfl
  | cons c cs ih => simp [replaceChar, ih]

theorem escapeChars_append (xs ys : List Char) :
    escapeChars (xs ++ ys) = escapeChars xs ++ escapeChars ys := by
  simp [escapeChars, replaceChar_append]

theorem escapeChars_singleton (c : Char) : escapeChars [c] = escSeg c := by
  by_cases h1 : c = '\\'
  · subst h1; rfl
  · by_cases h2 : c = '"'
    · subst h2; rfl
    · by_cases h3 : c = '*'
      · subst h3; rfl
      · by_cases h4 : c = '?'
        · subst h4; rfl
        · simp [escapeChars, escSeg, replaceChar, h1, h2, h3, h4]

theorem escapeChars_cons (c : Char) (l : List Char) :
    escapeChars (c :: l) = escSeg c ++ escapeChars l := by
  have h : (c :: l) = [c] ++ l := rfl
  rw [h, escapeChars_append, escapeChars_singleton]

theorem unescapeChars_escapeChars (l : List Char) :
    unescapeChars (escapeChars l) = l := by
  induction l with
  | nil => rfl
  | cons c cs ih =>
    rw [escapeChars_cons]
    by_cases hsp : c = '\\' ∨ c = '"' ∨ c = '*' ∨ c = '?'
    · rw [escSeg, if_pos hsp]
      show unescapeChars ('\\' :: c :: escapeChars cs) = c :: cs
      rw [unescapeChars, if_pos ⟨rfl, hsp⟩, ih]
    · rw [escSeg, if_neg hsp]
      have hc : ¬(c = '\\') := fun h => hsp (Or.inl h)
      cases hE : escapeChars cs with
      | nil =>
        rw [hE] at ih
        simp only [unescapeChars] at ih
        show unescapeChars [c] = c :: cs
        rw [unescapeChars, ← ih]
      | cons y ys =>
        rw [hE] at ih
        show unescapeChars (c :: y :: ys) = c :: cs
        rw [unescapeChars, if_neg (fun hand => hc hand.1), ih]

theorem toList_asString (l : List Char) : (List.asString l).toList = l := rfl

theorem string_asString_toList (s : String) : s.toList.asString = s := rfl

/-- C8: the value-escaping function is invertible — reversing the escaping
of any escaped value reproduces the original value exactly, in particular
for values containing double-quote and backslash characters. -/
theorem escapeValue_roundTrip :
    (∀ s : String, unescapeValue (CQLQueryBuilder.escapeValue s) = s) ∧
    unescapeValue (CQLQueryBuilder.escapeValue "a\"b\\c*d?") = "a\"b\\c*d?" := by
  have h : ∀ s : String, unescapeValue (CQLQueryBuilder.escapeValue s) = s := by
    intro s
    show (unescapeChars ((escapeChars s.toList).asString).toList).asString = s
    rw [toList_asString, unescapeChars_escapeChars, string_asString_toList]
  exact ⟨h, h _⟩

/-- C4: with every field absent the parameter translator returns the empty
string, and the orchestrator short-circuits for every transport outcome
(the outcome parameter is never inspected), returning a successful empty
result: zero items, zero-result pagination with no previous/next page, and
the empty query echoed. -/
theorem searchSRU_emptyShortCircuit :
    buildSimpleCQLQuery {} = .ok "" ∧
    ∀ (parseRecordData : String → Option ParsedRecordData)
      (localeCompareJa : String → String → Int)
      (options : Option SRUSearchOptions)
      (rawOutcome : Except NDLError (ParsedSRUResponse × Option String)),
      searchSRU parseRecordData localeCompareJa {} options rawOutcome =
        .ok { items := []
              pagination :=
                { totalResults := 0
                  currentPage := 1
                  totalPages := 0
                  itemsPerPage := jsOrDefault (options.bind (·.maximumRecords)) 10
                  startIndex := jsOrDefault (options.bind (·.startRecord)) 1
                  hasPreviousPage := false
                  hasNextPage := false
                  nextPageParams := none
                  previousPageParams := none }
              query :=
                { cql := ""
                  schema :=
                    some (jsOrDefaultStr (options.bind (·.recordSchema))
                      "dcndl") } } := by
  exact ⟨rfl, fun _ _ _ _ => rfl⟩

/-- C5: a date range whose `from` bound is lexicographically greater than
its `to` bound is rejected by input validation before any query is built:
the translator returns the validation failure, whatever the other fields
hold. -/
theorem buildSimpleCQLQuery_dateRange_rejected :
    ∀ (p : SimpleSearchParams) (f t : String),
      p.dateRange = some { fromDate := some f, toDate := some t } →
      jsStrLtL t.toList f.toList = true →
      buildSimpleCQLQuery p =
        .error (validationError
          "検索パラメータの形式が正しくありません。検索条件を確認してください。"
          (some .schemaIssues)) := by
  intro p f t hdr hlt
  have hrange : dateRangeValid { fromDate := some f, toDate := some t } = false := by
    unfold dateRangeValid jsStrLe
    dsimp only
    rw [hlt]
    simp
  have hval : validateSimpleSearchParams p = false := by
    unfold validateSimpleSearchParams
    rw [hdr]
    simp [hrange]
  unfold buildSimpleCQLQuery
  rw [hval]
  rfl

/-- C5 witness: `from="2023", to="2020"` is rejected. -/
theorem buildSimpleCQLQuery_dateRange_rejected_witness :
    buildSimpleCQLQuery
        { dateRange := some { fromDate := some "2023", toDate := some "2020" } } =
      .error (validationError
        "検索パラメータの形式が正しくありません。検索条件を確認してください。"
        (some .schemaIssues)) :=
  buildSimpleCQLQuery_dateRange_rejected
    { dateRange := some { fromDate := some "2023", toDate := some "2020" } }
    "2023" "2020" rfl rfl

/-- C7: the quoted example produces `(title="文学") AND (NOT (language="eng"))`
— containing the title condition, the literal token `NOT`, and the language
condition inside the negated clause; in general a present exclude sub-bag is
built into a second builder that is negated and AND-combined onto the main
builder whenever its query is non-empty, and an empty exclude sub-bag
contributes nothing. -/
theorem buildSimpleCQLQuery_exclude :
    buildSimpleCQLQuery
        { title := some "文学",
          exclude := some { language := some (.one "eng") } } =
      .ok "(title=\"文学\") AND (NOT (language=\"eng\"))" ∧
    strContains "(title=\"文学\") AND (NOT (language=\"eng\"))"
      "title=\"文学\"" = true ∧
    strContains "(title=\"文学\") AND (NOT (language=\"eng\"))" "NOT" = true ∧
    strContains "(title=\"文学\") AND (NOT (language=\"eng\"))"
      "NOT (language=\"eng\")" = true ∧
    (∀ (p : SimpleSearchParams) (e : ExcludeParams),
      p.exclude = some e →
      validateSimpleSearchParams p = true →
      (simpleExcludeBuilder e).build ≠ "" →
      buildSimpleCQLQuery p =
        .ok ((simpleMainBuilder p).and (simpleExcludeBuilder e).not).build) ∧
    (∀ p : SimpleSearchParams,
      buildSimpleCQLQuery { p with exclude := some {} } =
        buildSimpleCQLQuery { p with exclude := none }) := by
  refine ⟨rfl, rfl, rfl, rfl, ?_, fun p => rfl⟩
  intro p e hexcl hval hne
  unfold buildSimpleCQLQuery
  rw [hval, hexcl]
  rw [if_pos rfl]
  dsimp only
  rw [if_pos hne]

/-- C7 witness: the composed form applied to the quoted example. -/
theorem buildSimpleCQLQuery_exclude_witness :
    buildSimpleCQLQuery
        { title := some "文学",
          exclude := some { language := some (.one "eng") } } =
      .ok ((simpleMainBuilder
          { title := some "文学",
            exclude := some { language := some (.one "eng") } }).and
        (simpleExcludeBuilder { language := some (.one "eng") }).not).build :=
  buildSimpleCQLQuery_exclude.2.2.2.2.1
    { title := some "文学", exclude := some { language := some (.one "eng") } }
    { language := some (.one "eng") } rfl rfl (by decide)

/-- C10: an exclude sub-bag carrying only a (non-empty) subject is accepted
by the schema but never applied to the exclusion builder, so the translator
returns exactly the query of the same parameters without any exclude. -/
theorem buildSimpleCQLQuery_excludeSubject_ignored :
    ∀ (p : SimpleSearchParams) (s : String), s ≠ "" →
      p.exclude = some { subject := some s } →
      buildSimpleCQLQuery p = buildSimpleCQLQuery { p with exclude := none } := by
  intro p s hs hexcl
  obtain ⟨t, c, sub, pub, i, isn, j, l, dr, ty, a, de, ex⟩ := p
  cases hexcl
  rfl

/-- C10 witness: excluding only a subject leaves a title query unchanged. -/
theorem buildSimpleCQLQuery_excludeSubject_ignored_witness :
    buildSimpleCQLQuery
        { title := some "abc", exclude := some { subject := some "史学" } } =
      buildSimpleCQLQuery { title := some "abc", exclude := none } :=
  buildSimpleCQLQuery_excludeSubject_ignored
    { title := some "abc", exclude := some { subject := some "史学" } }
    "史学" (by decide) rfl

/-- Spec-side reading of "a condition targets the free-text field": the
rendered condition string begins with the free-text field name (every
condition template starts with its field name). -/
def targetsFreeTextField (c : String) : Bool :=
  listStartsWith "anywhere".toList c.toList

/-- The complexity score as claim C9 states it: the condition count clamped
to 1..10, plus 2 (capped) when the count exceeds 5, plus 1 (capped) when
some condition targets the free-text field. -/
def claimComplexity (b : CQLQueryBuilder) : Nat :=
  let c1 := min 10 (max 1 b.conditions.length)
  let c2 := if 5 < b.conditions.length then min 10 (c1 + 2) else c1
  if b.conditions.any targetsFreeTextField then min 10 (c2 + 1) else c2

/-- C9 counterexample: a single condition built for the `title` field with
the value `anywhere` targets no free-text field (claimed complexity 1), yet
`validate()` reports complexity 2, because the code tests substring
containment of "anywhere" in the rendered condition rather than the
condition's field. -/
theorem validate_anywhere_counterexample :
    (createCQLBuilder.field "title" "anywhere" "=").conditions =
      ["title=\"anywhere\""] ∧
    (createCQLBuilder.field "title" "anywhere" "=").conditions.any
      targetsFreeTextField = false ∧
    claimComplexity (createCQLBuilder.field "title" "anywhere" "=") = 1 ∧
    (createCQLBuilder.field "title" "anywhere" "=").validate =
      .ok { isValid := true
            query := "title=\"anywhere\""
            errors := []
            warnings :=
              ["Full-text search across all fields may return many results"]
            complexity := 2 } ∧
    (2 : Nat) ≠ 1 := by
  exact ⟨rfl, rfl, rfl, rfl, by decide⟩

/-- C9 (amended): `validate()` always succeeds, echoes the built query,
reports a non-empty error list and a false validity flag exactly when the
built query is empty, emits its two warnings exactly when the condition
count exceeds 5 and when some condition string contains the substring
"anywhere", and computes the complexity as the condition count clamped to
1..10, plus 2 (capped at 10) for more than five conditions, plus 1 (capped
at 10) when some condition string contains "anywhere". -/
theorem validate_amended :
    ∀ b : CQLQueryBuilder,
      ∃ r, b.validate = Except.ok r ∧
        r.query = b.build ∧
        (r.isValid = false ↔ b.build = "") ∧
        (r.errors ≠ [] ↔ b.build = "") ∧
        r.warnings =
          ((if 5 < b.conditions.length then
              ["Complex query with many conditions may be slow"]
            else []) ++
            (if b.conditions.any (fun c => strContains c "anywhere") then
              ["Full-text search across all fields may return many results"]
            else [])) ∧
        r.complexity =
          (let c1 := min 10 (max 1 b.conditions.length)
           let c2 := if 5 < b.conditions.length then min 10 (c1 + 2) else c1
           if b.conditions.any (fun c => strContains c "anywhere") then
             min 10 (c2 + 1)
           else c2) := by
  intro b
  unfold CQLQueryBuilder.validate
  dsimp only
  by_cases h5 : b.conditions.length > 5 <;>
    by_cases hany : (b.conditions.any fun c => strContains c "anywhere") = true
  all_goals simp only [h5, hany, if_true, if_false, eq_self_iff_true,
    Bool.false_eq_true]
  all_goals
    split
    · refine ⟨_, rfl, rfl, ?_, ?_, rfl, rfl⟩
      · by_cases hq : b.build = "" <;> simp [hq]
      · by_cases hq : b.build = "" <;> simp [hq]
    · next hbad => exact absurd (by constructor <;> omega) hbad

theorem paginationClaimInvariant_extract (r : SRUSearchRetrieveResponseData)
    (params : SRUSearchRetrieveRequest) :
    paginationClaimInvariant
      (extractSRUPaginationInfo (.searchRetrieve r) params) :=
  ⟨rfl, rfl, rfl, rfl⟩

theorem executeSearchRetrieve_ok_structure
    (parseRecordData : String → Option ParsedRecordData)
    (params : SRUSearchRetrieveRequest)
    (rawOutcome : Except NDLError (ParsedSRUResponse × Option String))
    (result : SRUSearchResponse) :
    executeSearchRetrieve parseRecordData params rawOutcome = .ok result →
    ∃ r, result.pagination =
      extractSRUPaginationInfo (.searchRetrieve r) params := by
  unfold executeSearchRetrieve
  match rawOutcome with
  | .error e => exact fun h => Except.noConfusion h
  | .ok (response, rawXML) =>
    match response with
    | .explain => exact fun h => Except.noConfusion h
    | .searchRetrieve r =>
      dsimp only
      cases hana : analyzeSRUDiagnostics (r.diagnostic.map OneOrMany.toList) with
      | some e => exact fun h => Except.noConfusion h
      | none =>
        intro h
        injection h with h'
        subst h'
        exact ⟨r, rfl⟩

/-- C3 counterexample: the empty-query short circuit of the orchestrator
hardcodes `currentPage = 1`, so with `startRecord = 6` and
`maximumRecords = 5` the returned state violates the claimed invariant
`currentPage = floor((startIndex - 1) / itemsPerPage) + 1` (which demands
page 2 there). -/
theorem searchSRU_pagination_counterexample :
    searchSRU (fun _ => none) (fun _ _ => 0) {}
        (some { maximumRecords := some 5, startRecord := some 6 })
        (Except.error (validationError "unused")) =
      Except.ok
        { items := []
          pagination :=
            { totalResults := 0, currentPage := 1, totalPages := 0,
              itemsPerPage := 5, startIndex := 6, hasPreviousPage := false,
              hasNextPage := false, nextPageParams := none,
              previousPageParams := none }
          query := { cql := "", schema := some "dcndl" } } ∧
    (6 - 1) / 5 + 1 = 2 ∧
    ¬ paginationClaimInvariant
        { totalResults := 0, currentPage := 1, totalPages := 0,
          itemsPerPage := 5, startIndex := 6, hasPreviousPage := false,
          hasNextPage := false, nextPageParams := none,
          previousPageParams := none } := by
  refine ⟨rfl, rfl, ?_⟩
  intro hinv
  have := hinv.2.1
  simp at this

/-- C3 (amended): every pagination state returned on a success path of the
orchestrator satisfies the ceiling-based total-page count and the
next/previous-page flags derived from `currentPage`; on the dispatched path
the full invariant holds, including the floor-based `currentPage` formula,
while the empty-query short circuit always reports `currentPage = 1` (which
matches the formula only when `startIndex <= itemsPerPage`). -/
theorem searchSRU_pagination_invariant :
    ∀ (parseRecordData : String → Option ParsedRecordData)
      (localeCompareJa : String → String → Int)
      (params : SimpleSearchParams) (options : Option SRUSearchOptions)
      (rawOutcome : Except NDLError (ParsedSRUResponse × Option String))
      (resp : SRUSearchResponse),
      searchSRU parseRecordData localeCompareJa params options rawOutcome =
        .ok resp →
      (resp.pagination.totalPages =
          resp.pagination.totalResults ⌈/⌉ resp.pagination.itemsPerPage ∧
        resp.pagination.hasNextPage =
          decide (resp.pagination.currentPage < resp.pagination.totalPages) ∧
        resp.pagination.hasPreviousPage =
          decide (1 < resp.pagination.currentPage)) ∧
      (∀ q, buildSimpleCQLQuery params = .ok q → q ≠ "" →
        paginationClaimInvariant resp.pagination) ∧
      (buildSimpleCQLQuery params = .ok "" →
        resp.pagination.currentPage = 1) := by
  intro pr lc params options rawOutcome resp h
  unfold searchSRU at h
  cases hbuild : buildSimpleCQLQuery params with
  | error e => rw [hbuild] at h; exact Except.noConfusion h
  | ok q =>
    rw [hbuild] at h
    dsimp only at h
    by_cases hq : q = ""
    · subst hq
      rw [if_pos rfl] at h
      injection h with h'
      subst h'
      refine ⟨⟨?_, rfl, rfl⟩, ?_, fun _ => rfl⟩
      · have hipp := jsOrDefault_pos (options.bind (·.maximumRecords)) 10
          (by omega)
        show (0 : Nat) = 0 ⌈/⌉ jsOrDefault (options.bind (·.maximumRecords)) 10
        rw [Nat.ceilDiv_eq_add_pred_div]
        exact (Nat.div_eq_of_lt (by omega)).symm
      · intro q' hq' hne
        injection hq' with h''
        exact absurd h''.symm hne
    · rw [if_neg hq] at h
      revert h
      cases hexec : executeSearchRetrieve pr
          { query := q
            maximumRecords :=
              some (jsOrDefault (options.bind (·.maximumRecords)) 10)
            startRecord := some (jsOrDefault (options.bind (·.startRecord)) 1)
            recordSchema :=
              some (jsOrDefaultStr (options.bind (·.recordSchema)) "dcndl")
            version := some (jsOrDefaultStr (options.bind (·.version)) "1.2") }
          rawOutcome with
      | error e => exact fun h => Except.noConfusion h
      | ok result =>
        intro h
        injection h with h'
        subst h'
        obtain ⟨r, hpag⟩ :=
          executeSearchRetrieve_ok_structure pr _ rawOutcome result hexec
        have hinv := paginationClaimInvariant_extract r
          { query := q
            maximumRecords :=
              some (jsOrDefault (options.bind (·.maximumRecords)) 10)
            startRecord := some (jsOrDefault (options.bind (·.startRecord)) 1)
            recordSchema :=
              some (jsOrDefaultStr (options.bind (·.recordSchema)) "dcndl")
            version := some (jsOrDefaultStr (options.bind (·.version)) "1.2") }
        rw [← hpag] at hinv
        refine ⟨⟨hinv.1, hinv.2.2.1, hinv.2.2.2⟩, fun q' _ _ => hinv, ?_⟩
        · intro habs
          injection habs with h''
          exact absurd h'' hq

/-- C3 witness: the invariant instantiated on a dispatched search for
`title = "x"` returning three results. -/
theorem searchSRU_pagination_invariant_witness :
    ((1 : Nat) = (3 : Nat) ⌈/⌉ 10 ∧
      (false : Bool) = decide ((1 : Nat) < 1) ∧
      (false : Bool) = decide ((1 : Nat) < 1)) ∧
    (∀ q, buildSimpleCQLQuery { title := some "x" } = .ok q → q ≠ "" →
      paginationClaimInvariant
        { totalResults := 3, currentPage := 1, totalPages := 1,
          itemsPerPage := 10, startIndex := 1, nextRecordPosition := none,
          resultSetId := none, hasPreviousPage := false, hasNextPage := false,
          nextPageParams := none, previousPageParams := none }) ∧
    (buildSimpleCQLQuery { title := some "x" } = .ok "" → (1 : Nat) = 1) :=
  searchSRU_pagination_invariant (fun _ => none) (fun _ _ => 0)
    { title := some "x" } none
    (.ok (.searchRetrieve { numberOfRecords := some 3 }, none))
    { items := []
      pagination :=
        { totalResults := 3, currentPage := 1, totalPages := 1,
          itemsPerPage := 10, startIndex := 1, nextRecordPosition := none,
          resultSetId := none, hasPreviousPage := false, hasNextPage := false,
          nextPageParams := none, previousPageParams := none }
      query := { cql := "title=\"x\"", schema := some "dcndl" }
      diagnostics := none
      rawXML := none }
    rfl

/-- C6: after a successful transport response, a non-null diagnostic
classification is authoritative — the search fails with exactly that error
and no items are returned; a null classification proceeds to item
extraction and succeeds; and the orchestrator surfaces the
dispatch-level error unchanged. -/
theorem executeSearchRetrieve_diagnostics_authoritative :
    (∀ (parseRecordData : String → Option ParsedRecordData)
      (params : SRUSearchRetrieveRequest)
      (r : SRUSearchRetrieveResponseData) (rawXML : Option String)
      (e : NDLError),
      analyzeSRUDiagnostics (r.diagnostic.map OneOrMany.toList) = some e →
      executeSearchRetrieve parseRecordData params
        (.ok (.searchRetrieve r, rawXML)) = .error e) ∧
    (∀ (parseRecordData : String → Option ParsedRecordData)
      (params : SRUSearchRetrieveRequest)
      (r : SRUSearchRetrieveResponseData) (rawXML : Option String),
      analyzeSRUDiagnostics (r.diagnostic.map OneOrMany.toList) = none →
      executeSearchRetrieve parseRecordData params
        (.ok (.searchRetrieve r, rawXML)) =
        .ok { items :=
                extractSRUSearchItems parseRecordData (.searchRetrieve r)
              pagination :=
                extractSRUPaginationInfo (.searchRetrieve r) params
              query := { cql := params.query, schema := params.recordSchema }
              diagnostics := r.diagnostic.map OneOrMany.toList
              rawXML :=
                match rawXML with
                | some s => if s = "" then none else some s
                | none => none }) ∧
    (∀ (pr : String → Option ParsedRecordData)
      (lc : String → String → Int) (sp : SimpleSearchParams)
      (options : Option SRUSearchOptions)
      (rawOutcome : Except NDLError (ParsedSRUResponse × Option String))
      (q : String) (e : NDLError),
      buildSimpleCQLQuery sp = .ok q → q ≠ "" →
      executeSearchRetrieve pr
        { query := q
          maximumRecords :=
            some (jsOrDefault (options.bind (·.maximumRecords)) 10)
          startRecord := some (jsOrDefault (options.bind (·.startRecord)) 1)
          recordSchema :=
            some (jsOrDefaultStr (options.bind (·.recordSchema)) "dcndl")
          version := some (jsOrDefaultStr (options.bind (·.version)) "1.2") }
        rawOutcome = .error e →
      searchSRU pr lc sp options rawOutcome = .error e) := by
  refine ⟨?_, ?_, ?_⟩
  · intro parseRecordData params r rawXML e hana
    unfold executeSearchRetrieve
    dsimp only
    rw [hana]
  · intro parseRecordData params r rawXML hana
    unfold executeSearchRetrieve
    dsimp only
    rw [hana]
  · intro pr lc sp options rawOutcome q e hbuild hne hexec
    unfold searchSRU
    rw [hbuild]
    dsimp only
    rw [if_neg hne, hexec]

/-- C6 witness: a syntax diagnostic fails the search with the query-syntax
error; an untroubled response with one total result succeeds. -/
theorem executeSearchRetrieve_diagnostics_authoritative_witness :
    executeSearchRetrieve (fun _ => none) { query := "q" }
        (.ok (.searchRetrieve
          { diagnostic := some (.one ⟨none, none, "Syntax error", none⟩) },
          none)) =
      .error (querySyntaxError "CQLクエリの構文エラー: Syntax error"
        ⟨none, none, "Syntax error", none⟩) ∧
    executeSearchRetrieve (fun _ => none) { query := "q" }
        (.ok (.searchRetrieve { numberOfRecords := some 1 }, none)) =
      .ok { items :=
              extractSRUSearchItems (fun _ => none)
                (.searchRetrieve { numberOfRecords := some 1 })
            pagination :=
              extractSRUPaginationInfo
                (.searchRetrieve { numberOfRecords := some 1 }) { query := "q" }
            query := { cql := "q", schema := none }
            diagnostics := none
            rawXML := none } := by
  constructor
  · exact executeSearchRetrieve_diagnostics_authoritative.1 (fun _ => none)
      { query := "q" }
      { diagnostic := some (.one ⟨none, none, "Syntax error", none⟩) }
      none _ rfl
  · exact executeSearchRetrieve_diagnostics_authoritative.2.1 (fun _ => none)
      { query := "q" } { numberOfRecords := some 1 } none rfl

end NDL
